import Mathlib

set_option maxHeartbeats 1000000

/-! Shallow embedding of `src/services/browser/browser.service.ts` from the
instagram-server-next-mcp repository: the `BrowserService` class (a Browser
Session Manager) wrapping a browser-automation driver (puppeteer).

The driver is modelled as an oracle (`DriverEnv`) that decides the outcome of
every driver call; each service operation returns its result, the updated
service state, and the list of driver calls it performed, so that properties
such as "performs at most one underlying launch" or "does not create a page"
are statements about the emitted call trace. -/

/-- The repository's single error kind (`BrowserError` in
`core/utils/errors.ts`): an error carrying a human-readable message. -/
structure BrowserError where
  message : String
deriving Repr, DecidableEq

/-- Browser handles are opaque references; modelled as natural numbers. -/
abbrev Browser := Nat

/-- Page handles are opaque references; modelled as natural numbers. -/
abbrev Page := Nat

/-- `IBrowserConfig` (from `types.ts`, populated in the constructor,
browser.service.ts lines 13-22): the stored session configuration. -/
structure IBrowserConfig where
  headless : Bool
  userDataDir : String
  windowWidth : Nat
  windowHeight : Nat
  defaultTimeout : Nat
deriving Repr, DecidableEq

/-- Puppeteer lifecycle events accepted as a `waitUntil` condition
(`PuppeteerLifeCycleEvent`). -/
inductive LifeCycleEvent where
  | load
  | domcontentloaded
  | networkidle0
  | networkidle2
deriving Repr, DecidableEq

/-- `INavigationOptions` (from `types.ts`): optional wait condition and
optional timeout for `navigateTo`. -/
structure INavigationOptions where
  waitUntil : Option LifeCycleEvent
  timeout : Option Nat
deriving Repr, DecidableEq

/-- The options object passed to `puppeteer.launch` (browser.service.ts
lines 30-45). -/
structure LaunchOptions where
  headless : Bool
  channel : String
  userDataDir : String
  args : List String
  defaultViewportWidth : Nat
  defaultViewportHeight : Nat
deriving Repr, DecidableEq

/-- One call made to the underlying browser-automation driver. -/
inductive DriverCall where
  | launch (opts : LaunchOptions)
  | newPage
  | closeBrowser
  | setViewport (width height : Nat)
  | setUserAgent (ua : String)
  | setDefaultTimeout (timeout : Nat)
  | setExtraHTTPHeaders (headers : List (String × String))
  | goto (url : String) (waitUntil : LifeCycleEvent) (timeout : Nat)
  | waitForSelector (selector : String) (timeout : Nat)
deriving Repr, DecidableEq

/-- The driver oracle: for every driver call it decides success (with a
returned handle where applicable) or failure with an error message. -/
structure DriverEnv where
  launch : LaunchOptions → Except String Browser
  newPage : Browser → Except String Page
  closeBrowser : Browser → Except String Unit
  setViewport : Page → Nat → Nat → Except String Unit
  setUserAgent : Page → String → Except String Unit
  setDefaultTimeout : Page → Nat → Except String Unit
  setExtraHTTPHeaders : Page → List (String × String) → Except String Unit
  goto : Page → String → LifeCycleEvent → Nat → Except String Unit
  waitForSelector : Page → String → Nat → Except String Unit

/-- The browser-related part of the server configuration returned by
`ConfigManager.getInstance().getConfig()`. -/
structure ServerBrowserConfig where
  headless : Bool
  windowWidth : Nat
  windowHeight : Nat
  defaultTimeout : Nat
deriving Repr, DecidableEq

/-- The server configuration consumed from the external configuration
provider (`ConfigManager`). -/
structure ServerConfig where
  browser : ServerBrowserConfig
  chromeUserDataDir : String
deriving Repr, DecidableEq

/-- The `BrowserService` state: the (at most one) browser handle, null until
a successful launch, and the immutable stored configuration. -/
structure BrowserService where
  browser : Option Browser
  config : IBrowserConfig
deriving Repr, DecidableEq

/-- The `BrowserService` constructor (browser.service.ts lines 13-22):
consumes the server configuration and stores the session configuration;
the browser handle starts as null. -/
def BrowserService.new (serverConfig : ServerConfig) : BrowserService :=
  BrowserService.mk none
    (IBrowserConfig.mk serverConfig.browser.headless serverConfig.chromeUserDataDir
      serverConfig.browser.windowWidth serverConfig.browser.windowHeight
      serverConfig.browser.defaultTimeout)

/-- The launch options assembled by `initialize` (browser.service.ts lines
30-45). Note the source passes `headless: true` literally, not
`this.config.headless`. -/
def launchOptions (config : IBrowserConfig) : LaunchOptions :=
  LaunchOptions.mk true "chrome" config.userDataDir
    ["--no-sandbox",
     "--disable-setuid-sandbox",
     "--window-size=" ++ toString config.windowWidth ++ "," ++ toString config.windowHeight,
     "--disable-dev-shm-usage",
     "--disable-blink-features=AutomationControlled"]
    config.windowWidth config.windowHeight

/-- The fixed desktop user-agent string set on every new page
(browser.service.ts line 107). -/
def userAgentString : String :=
  "Mozilla/5.0 (Macintosh; Intel Mac OS X 10_15_7) AppleWebKit/537.36 (KHTML, like Gecko) Chrome/120.0.0.0 Safari/537.36"

/-- The fixed extra HTTP headers set on every new page (browser.service.ts
lines 113-115). -/
def acceptLanguageHeaders : List (String × String) :=
  [("Accept-Language", "en-US,en;q=0.9")]

/-- JavaScript truthiness fallback `x || d` for an optional number: yields
`d` when `x` is `undefined` or `0` (both falsy in JavaScript). -/
def jsOrTimeout (x : Option Nat) (d : Nat) : Nat :=
  match x with
  | none => d
  | some t => if t = 0 then d else t

/-- Models `BrowserService.initialize` (browser.service.ts lines 27-58): if
no browser handle exists, launches the driver with the assembled launch
options (registering the disconnect handler, modelled separately as
`BrowserService.onDisconnected`); a driver launch failure is wrapped as
"Failed to initialize browser: ...". If a handle already exists, nothing
happens. Returns the result, the updated state, and the driver calls
performed. -/
def BrowserService.initBrowser (env : DriverEnv) (s : BrowserService) :
    Except BrowserError Unit × BrowserService × List DriverCall :=
  match s.browser with
  | some _ => (Except.ok (), s, [])
  | none =>
    match env.launch (launchOptions s.config) with
    | Except.ok b =>
        (Except.ok (), BrowserService.mk (some b) s.config,
          [DriverCall.launch (launchOptions s.config)])
    | Except.error msg =>
        (Except.error (BrowserError.mk ("Failed to initialize browser: " ++ msg)), s,
          [DriverCall.launch (launchOptions s.config)])

/-- The handler registered by `initialize` on the driver's `disconnected`
event (browser.service.ts lines 48-51): clears the browser handle and throws
a `BrowserError` that has no defined recipient. -/
def BrowserService.onDisconnected (s : BrowserService) : BrowserService × BrowserError :=
  (BrowserService.mk none s.config, BrowserError.mk "Browser disconnected unexpectedly")

/-- Models the private `BrowserService.setupPage` (browser.service.ts lines
98-121): sets the viewport from the stored configuration, the fixed desktop
user-agent, the configured default timeout, and the fixed Accept-Language
header, in that order; the first driver failure aborts the sequence and is
wrapped as "Failed to setup page: ...". -/
def BrowserService.setupPage (env : DriverEnv) (s : BrowserService) (page : Page) :
    Except BrowserError Unit × List DriverCall :=
  match env.setViewport page s.config.windowWidth s.config.windowHeight with
  | Except.error msg =>
      (Except.error (BrowserError.mk ("Failed to setup page: " ++ msg)),
        [DriverCall.setViewport s.config.windowWidth s.config.windowHeight])
  | Except.ok _ =>
    match env.setUserAgent page userAgentString with
    | Except.error msg =>
        (Except.error (BrowserError.mk ("Failed to setup page: " ++ msg)),
          [DriverCall.setViewport s.config.windowWidth s.config.windowHeight,
           DriverCall.setUserAgent userAgentString])
    | Except.ok _ =>
      match env.setDefaultTimeout page s.config.defaultTimeout with
      | Except.error msg =>
          (Except.error (BrowserError.mk ("Failed to setup page: " ++ msg)),
            [DriverCall.setViewport s.config.windowWidth s.config.windowHeight,
             DriverCall.setUserAgent userAgentString,
             DriverCall.setDefaultTimeout s.config.defaultTimeout])
      | Except.ok _ =>
        match env.setExtraHTTPHeaders page acceptLanguageHeaders with
        | Except.error msg =>
            (Except.error (BrowserError.mk ("Failed to setup page: " ++ msg)),
              [DriverCall.setViewport s.config.windowWidth s.config.windowHeight,
               DriverCall.setUserAgent userAgentString,
               DriverCall.setDefaultTimeout s.config.defaultTimeout,
               DriverCall.setExtraHTTPHeaders acceptLanguageHeaders])
        | Except.ok _ =>
            (Except.ok (),
              [DriverCall.setViewport s.config.windowWidth s.config.windowHeight,
               DriverCall.setUserAgent userAgentString,
               DriverCall.setDefaultTimeout s.config.defaultTimeout,
               DriverCall.setExtraHTTPHeaders acceptLanguageHeaders])

/-- Models `BrowserService.getPage` (browser.service.ts lines 63-77): fails
with "Browser not initialized" when no handle exists (performing no driver
call); otherwise creates a new page, runs `setupPage` on it, and returns it;
any failure inside the try block - including a `BrowserError` thrown by
`setupPage` - is re-wrapped as "Failed to create new page: ...". -/
def BrowserService.getPage (env : DriverEnv) (s : BrowserService) :
    Except BrowserError Page × BrowserService × List DriverCall :=
  match s.browser with
  | none => (Except.error (BrowserError.mk "Browser not initialized"), s, [])
  | some b =>
    match env.newPage b with
    | Except.error msg =>
        (Except.error (BrowserError.mk ("Failed to create new page: " ++ msg)), s,
          [DriverCall.newPage])
    | Except.ok page =>
      match BrowserService.setupPage env s page with
      | (Except.ok _, calls) => (Except.ok page, s, DriverCall.newPage :: calls)
      | (Except.error e, calls) =>
          (Except.error (BrowserError.mk ("Failed to create new page: " ++ e.message)), s,
            DriverCall.newPage :: calls)

/-- Models `BrowserService.close` (browser.service.ts lines 82-93): when no
handle exists, does nothing (no driver call); otherwise closes the browser
via the driver and clears the handle, wrapping a driver failure as
"Failed to close browser: ..." (the handle is cleared only after a
successful close). -/
def BrowserService.close (env : DriverEnv) (s : BrowserService) :
    Except BrowserError Unit × BrowserService × List DriverCall :=
  match s.browser with
  | none => (Except.ok (), s, [])
  | some b =>
    match env.closeBrowser b with
    | Except.ok _ =>
        (Except.ok (), BrowserService.mk none s.config, [DriverCall.closeBrowser])
    | Except.error msg =>
        (Except.error (BrowserError.mk ("Failed to close browser: " ++ msg)), s,
          [DriverCall.closeBrowser])

/-- Models `BrowserService.navigateTo` (browser.service.ts lines 126-141):
calls `page.goto` with `waitUntil` being the caller's wait condition or
`networkidle0` (JavaScript `||`), and `timeout` being the caller's timeout
or the configured default (JavaScript `||`, so a caller-supplied `0` also
falls back to the default); a driver failure is wrapped as
"Failed to navigate to URL: ...". -/
def BrowserService.navigateTo (env : DriverEnv) (s : BrowserService) (page : Page)
    (url : String) (options : Option INavigationOptions) :
    Except BrowserError Unit × List DriverCall :=
  let w := (options.bind INavigationOptions.waitUntil).getD LifeCycleEvent.networkidle0
  let t := jsOrTimeout (options.bind INavigationOptions.timeout) s.config.defaultTimeout
  match env.goto page url w t with
  | Except.ok _ => (Except.ok (), [DriverCall.goto url w t])
  | Except.error msg =>
      (Except.error (BrowserError.mk ("Failed to navigate to " ++ url ++ ": " ++ msg)),
        [DriverCall.goto url w t])

/-- Models `BrowserService.waitForSelector` (browser.service.ts lines
146-159): calls the driver's wait with the caller's timeout or the
configured default (JavaScript `||`), returning `true` on success and
`false` on any driver failure; no error is ever propagated (the return type
is `Bool`, not `Except`). -/
def BrowserService.waitForSel (env : DriverEnv) (s : BrowserService) (page : Page)
    (selector : String) (timeout : Option Nat) : Bool × List DriverCall :=
  let t := jsOrTimeout timeout s.config.defaultTimeout
  match env.waitForSelector page selector t with
  | Except.ok _ => (true, [DriverCall.waitForSelector selector t])
  | Except.error _ => (false, [DriverCall.waitForSelector selector t])

/-- Recognizer for launch calls in a driver-call trace. -/
def DriverCall.isLaunch : DriverCall → Bool
  | DriverCall.launch _ => true
  | _ => false

/-- Number of underlying driver launches in a trace. -/
def countLaunches (calls : List DriverCall) : Nat :=
  calls.countP DriverCall.isLaunch

/-- One operation invoked on the Session Manager (or the driver's
disconnect event firing), for reasoning about call sequences. -/
inductive Op where
  | init
  | getPage
  | close
  | navigateTo (page : Page) (url : String) (options : Option INavigationOptions)
  | waitForSel (page : Page) (selector : String) (timeout : Option Nat)
  | disconnected
deriving Repr, DecidableEq

/-- The service state reached after one operation. `navigateTo` and
`waitForSelector` do not touch the service state. -/
def runOp (env : DriverEnv) (s : BrowserService) : Op → BrowserService
  | Op.init => (BrowserService.initBrowser env s).2.1
  | Op.getPage => (BrowserService.getPage env s).2.1
  | Op.close => (BrowserService.close env s).2.1
  | Op.navigateTo _ _ _ => s
  | Op.waitForSel _ _ _ => s
  | Op.disconnected => (BrowserService.onDisconnected s).1

/-- The service state reached after a sequence of operations. -/
def runOps (env : DriverEnv) (s : BrowserService) : List Op → BrowserService
  | [] => s
  | op :: ops => runOps env (runOp env s op) ops

/-! ### Concrete fixtures used by witnesses and counterexamples -/

/-- A concrete stored configuration (note `headless := false`). -/
def testConfig : IBrowserConfig :=
  IBrowserConfig.mk false "/tmp/chrome-profile" 1280 800 30000

/-- A fresh service state: no browser handle, `testConfig` stored. -/
def testState : BrowserService :=
  BrowserService.mk none testConfig

/-- A service state holding a live browser handle. -/
def testStateLive : BrowserService :=
  BrowserService.mk (some 1) testConfig

/-- A driver oracle on which every call succeeds: launch yields browser
handle 1, page creation yields page handle 7. -/
def testEnvOk : DriverEnv where
  launch := fun _ => Except.ok 1
  newPage := fun _ => Except.ok 7
  closeBrowser := fun _ => Except.ok ()
  setViewport := fun _ _ _ => Except.ok ()
  setUserAgent := fun _ _ => Except.ok ()
  setDefaultTimeout := fun _ _ => Except.ok ()
  setExtraHTTPHeaders := fun _ _ => Except.ok ()
  goto := fun _ _ _ _ => Except.ok ()
  waitForSelector := fun _ _ _ => Except.ok ()

/-- A driver oracle on which every call fails with message "boom". -/
def testEnvFail : DriverEnv where
  launch := fun _ => Except.error "boom"
  newPage := fun _ => Except.error "boom"
  closeBrowser := fun _ => Except.error "boom"
  setViewport := fun _ _ _ => Except.error "boom"
  setUserAgent := fun _ _ => Except.error "boom"
  setDefaultTimeout := fun _ _ => Except.error "boom"
  setExtraHTTPHeaders := fun _ _ => Except.error "boom"
  goto := fun _ _ _ _ => Except.error "boom"
  waitForSelector := fun _ _ _ => Except.error "boom"

/-! ### Helper lemmas -/

/-- No operation changes the stored configuration. -/
theorem runOp_config (env : DriverEnv) (s : BrowserService) (op : Op) :
    (runOp env s op).config = s.config := by
  obtain ⟨br, cfg⟩ := s
  cases op with
  | init =>
      cases br with
      | some b => rfl
      | none =>
          simp only [runOp, BrowserService.initBrowser]
          cases env.launch (launchOptions cfg) <;> rfl
  | getPage =>
      cases br with
      | none => rfl
      | some b =>
          simp only [runOp, BrowserService.getPage]
          cases env.newPage b with
          | error msg => rfl
          | ok p =>
              rcases h : BrowserService.setupPage env (BrowserService.mk (some b) cfg) p
                with ⟨r, calls⟩
              cases r <;> simp [h]
  | close =>
      cases br with
      | none => rfl
      | some b =>
          simp only [runOp, BrowserService.close]
          cases env.closeBrowser b <;> rfl
  | navigateTo p url options => rfl
  | waitForSel p sel t => rfl
  | disconnected => rfl

/-- No sequence of operations changes the stored configuration. -/
theorem runOps_config (env : DriverEnv) (s : BrowserService) (ops : List Op) :
    (runOps env s ops).config = s.config := by
  induction ops generalizing s with
  | nil => rfl
  | cons op ops ih => simpa [runOps, runOp_config] using (ih (runOp env s op)).trans (runOp_config env s op)

/-- While the driver refuses to launch (for the stored configuration's
launch options), no operation can make a browser handle appear. -/
theorem runOp_browser_none (env : DriverEnv) (s : BrowserService) (op : Op)
    (hb : s.browser = none) (msg : String)
    (hLaunch : env.launch (launchOptions s.config) = Except.error msg) :
    (runOp env s op).browser = none := by
  obtain ⟨br, cfg⟩ := s
  simp only at hb
  subst hb
  cases op with
  | init => simp [runOp, BrowserService.initBrowser, hLaunch]
  | getPage => rfl
  | close => rfl
  | navigateTo p url options => rfl
  | waitForSel p sel t => rfl
  | disconnected => rfl

/-- While the driver refuses to launch, no sequence of operations can make
a browser handle appear: no successful `initialize` is possible. -/
theorem runOps_browser_none (env : DriverEnv) (s : BrowserService) (ops : List Op)
    (hb : s.browser = none) (msg : String)
    (hLaunch : env.launch (launchOptions s.config) = Except.error msg) :
    (runOps env s ops).browser = none := by
  induction ops generalizing s with
  | nil => exact hb
  | cons op ops ih =>
      have hc := runOp_config env s op
      exact ih (runOp env s op) (runOp_browser_none env s op hb msg hLaunch) (by rw [hc]; exact hLaunch)

/-- An operation other than `initialize` never makes a browser handle
appear. -/
theorem runOp_browser_none_of_not_init (env : DriverEnv) (s : BrowserService) (op : Op)
    (hb : s.browser = none) (hop : op ≠ Op.init) :
    (runOp env s op).browser = none := by
  obtain ⟨br, cfg⟩ := s
  simp only at hb
  subst hb
  cases op with
  | init => exact absurd rfl hop
  | getPage => rfl
  | close => rfl
  | navigateTo p url options => rfl
  | waitForSel p sel t => rfl
  | disconnected => rfl

/-- A sequence of operations containing no `initialize` call never makes a
browser handle appear. -/
theorem runOps_browser_none_of_no_init (env : DriverEnv) (s : BrowserService) (ops : List Op)
    (hb : s.browser = none) (hops : Op.init ∉ ops) :
    (runOps env s ops).browser = none := by
  induction ops generalizing s with
  | nil => exact hb
  | cons op ops ih =>
      have hop : op ≠ Op.init := fun h => hops (h ▸ List.mem_cons_self op ops)
      have hrest : Op.init ∉ ops := fun h => hops (List.mem_cons_of_mem op h)
      exact ih (runOp env s op) (runOp_browser_none_of_not_init env s op hb hop) hrest

/-- `getPage` on a state without a browser handle: the exact error, no state
change, and no driver calls. -/
theorem getPage_none (env : DriverEnv) (s : BrowserService) (hb : s.browser = none) :
    BrowserService.getPage env s =
      (Except.error (BrowserError.mk ("Browser " ++ "not initialized")), s, []) := by
  obtain ⟨br, cfg⟩ := s
  simp only at hb
  subst hb
  rfl

/-! ### Claim theorems -/

/-- Claim C2: for every call sequence in which no successful initialize has
occurred (here: starting from a fresh state under a driver that refuses to
launch, so the browser handle stays absent), `getPage` fails with an error
whose message says "not initialized", leaves the state unchanged, and
performs no driver call - in particular it does not create a page. -/
theorem getPage_uninitialized_fails (env : DriverEnv) (s0 : BrowserService) (ops : List Op)
    (hb : s0.browser = none) (msg : String)
    (hLaunch : env.launch (launchOptions s0.config) = Except.error msg) :
    BrowserService.getPage env (runOps env s0 ops) =
      (Except.error (BrowserError.mk ("Browser " ++ "not initialized")),
       runOps env s0 ops, []) :=
  getPage_none env _ (runOps_browser_none env s0 ops hb msg hLaunch)

/-- Witness for C2 at a concrete call sequence under the all-failing
driver. -/
theorem getPage_uninitialized_fails_witness :
    BrowserService.getPage testEnvFail
        (runOps testEnvFail testState [Op.getPage, Op.init, Op.close]) =
      (Except.error (BrowserError.mk ("Browser " ++ "not initialized")),
       runOps testEnvFail testState [Op.getPage, Op.init, Op.close], []) :=
  getPage_uninitialized_fails testEnvFail testState [Op.getPage, Op.init, Op.close]
    rfl "boom" rfl

/-- Claim C6: `close` with no browser handle is a no-op: it succeeds, leaves
the state unchanged, and performs no driver call (in particular the driver's
close is not called). -/
theorem close_without_handle_noop (env : DriverEnv) (s : BrowserService)
    (hb : s.browser = none) :
    BrowserService.close env s = (Except.ok (), s, []) := by
  obtain ⟨br, cfg⟩ := s
  simp only at hb
  subst hb
  rfl

/-- Witness for C6 on a fresh state under the all-failing driver. -/
theorem close_without_handle_noop_witness :
    BrowserService.close testEnvFail testState = (Except.ok (), testState, []) :=
  close_without_handle_noop testEnvFail testState rfl

/-- Claim C3: when a first `initialize` call succeeds, a second `initialize`
call without an intervening `close` succeeds, performs no driver call at
all, leaves the browser handle (the whole state) unchanged, and the two
calls together perform at most one underlying driver launch. -/
theorem initBrowser_idempotent (env : DriverEnv) (s : BrowserService)
    (h : (BrowserService.initBrowser env s).1 = Except.ok ()) :
    BrowserService.initBrowser env (BrowserService.initBrowser env s).2.1 =
      (Except.ok (), (BrowserService.initBrowser env s).2.1, []) ∧
    countLaunches ((BrowserService.initBrowser env s).2.2 ++
      (BrowserService.initBrowser env (BrowserService.initBrowser env s).2.1).2.2) ≤ 1 := by
  obtain ⟨br, cfg⟩ := s
  cases br with
  | some b =>
      exact ⟨rfl, by simp [BrowserService.initBrowser, countLaunches]⟩
  | none =>
      cases hL : env.launch (launchOptions cfg) with
      | ok b =>
          constructor
          · simp [BrowserService.initBrowser, hL]
          · simp [BrowserService.initBrowser, hL, countLaunches, DriverCall.isLaunch]
      | error m =>
          exact absurd h (by simp [BrowserService.initBrowser, hL])

/-- Witness for C3 on a fresh state under the all-succeeding driver. -/
theorem initBrowser_idempotent_witness :
    BrowserService.initBrowser testEnvOk (BrowserService.initBrowser testEnvOk testState).2.1 =
      (Except.ok (), (BrowserService.initBrowser testEnvOk testState).2.1, []) ∧
    countLaunches ((BrowserService.initBrowser testEnvOk testState).2.2 ++
      (BrowserService.initBrowser testEnvOk
        (BrowserService.initBrowser testEnvOk testState).2.1).2.2) ≤ 1 :=
  initBrowser_idempotent testEnvOk testState rfl

/-- Counterexample to claim C1 as stated: with a stored configuration whose
headless flag is `false`, `initialize` still hands the driver
`headless = true` - the stored headless flag is not part of the launch
options. -/
theorem launch_ignores_stored_headless_flag :
    testConfig.headless = false ∧
    (BrowserService.initBrowser testEnvOk testState).2.2 =
      [DriverCall.launch (launchOptions testConfig)] ∧
    (launchOptions testConfig).headless = true :=
  ⟨rfl, rfl, rfl⟩

/-- Claim C1 (amended): `initialize`, when no browser handle exists,
launches exactly once with options built from the stored configuration's
profile directory and window width/height (both as the default viewport and
as a window-size argument), but with `headless` hard-coded to `true`
regardless of the stored headless flag. -/
theorem initBrowser_launch_uses_stored_options (env : DriverEnv) (s : BrowserService)
    (hb : s.browser = none) :
    (BrowserService.initBrowser env s).2.2 = [DriverCall.launch (launchOptions s.config)] ∧
    (launchOptions s.config).userDataDir = s.config.userDataDir ∧
    (launchOptions s.config).defaultViewportWidth = s.config.windowWidth ∧
    (launchOptions s.config).defaultViewportHeight = s.config.windowHeight ∧
    ("--window-size=" ++ toString s.config.windowWidth ++ "," ++ toString s.config.windowHeight)
      ∈ (launchOptions s.config).args ∧
    (launchOptions s.config).headless = true := by
  obtain ⟨br, cfg⟩ := s
  simp only at hb
  subst hb
  refine ⟨?_, rfl, rfl, rfl, ?_, rfl⟩
  · simp only [BrowserService.initBrowser]
    cases env.launch (launchOptions cfg) <;> rfl
  · simp [launchOptions]

/-- Witness for amended C1 on a fresh state. -/
theorem initBrowser_launch_uses_stored_options_witness :
    (BrowserService.initBrowser testEnvOk testState).2.2 =
      [DriverCall.launch (launchOptions testState.config)] ∧
    (launchOptions testState.config).headless = true :=
  ⟨(initBrowser_launch_uses_stored_options testEnvOk testState rfl).1,
   (initBrowser_launch_uses_stored_options testEnvOk testState rfl).2.2.2.2.2⟩

/-- Claim C4: after the driver's disconnect event fires, the browser handle
is cleared; every subsequent `getPage` (across any operation sequence that
contains no new initialize call) fails with "not initialized" and performs
no driver call; and a new successful initialize re-establishes a handle. -/
theorem disconnect_clears_handle (env : DriverEnv) (s : BrowserService) (ops : List Op)
    (hops : Op.init ∉ ops) :
    ((BrowserService.onDisconnected s).1).browser = none ∧
    BrowserService.getPage env (runOps env (BrowserService.onDisconnected s).1 ops) =
      (Except.error (BrowserError.mk ("Browser " ++ "not initialized")),
       runOps env (BrowserService.onDisconnected s).1 ops, []) ∧
    (∀ b, env.launch (launchOptions s.config) = Except.ok b →
      ((BrowserService.initBrowser env (BrowserService.onDisconnected s).1).2.1).browser =
        some b) := by
  refine ⟨rfl, ?_, ?_⟩
  · exact getPage_none env _ (runOps_browser_none_of_no_init env _ ops rfl hops)
  · intro b hL
    simp [BrowserService.onDisconnected, BrowserService.initBrowser, hL]

/-- Witness for C4 at a concrete post-disconnect call sequence. -/
theorem disconnect_clears_handle_witness :
    ((BrowserService.onDisconnected testStateLive).1).browser = none ∧
    BrowserService.getPage testEnvOk
        (runOps testEnvOk (BrowserService.onDisconnected testStateLive).1
          [Op.close, Op.getPage]) =
      (Except.error (BrowserError.mk ("Browser " ++ "not initialized")),
       runOps testEnvOk (BrowserService.onDisconnected testStateLive).1
         [Op.close, Op.getPage], []) ∧
    ((BrowserService.initBrowser testEnvOk
        (BrowserService.onDisconnected testStateLive).1).2.1).browser = some 1 :=
  ⟨(disconnect_clears_handle testEnvOk testStateLive [Op.close, Op.getPage] (by decide)).1,
   (disconnect_clears_handle testEnvOk testStateLive [Op.close, Op.getPage] (by decide)).2.1,
   (disconnect_clears_handle testEnvOk testStateLive [Op.close, Op.getPage] (by decide)).2.2
     1 rfl⟩

/-- Claim C5: `waitForSelector` never propagates an error: its result type
is a plain boolean, it returns `true` exactly when the driver's wait (with
the effective timeout) succeeds, and `false` exactly when the underlying
wait fails for any reason. -/
theorem waitForSel_never_throws (env : DriverEnv) (s : BrowserService) (page : Page)
    (selector : String) (timeout : Option Nat) :
    ((BrowserService.waitForSel env s page selector timeout).1 = true ↔
      env.waitForSelector page selector (jsOrTimeout timeout s.config.defaultTimeout) =
        Except.ok ()) ∧
    ((BrowserService.waitForSel env s page selector timeout).1 = false ↔
      ∃ msg, env.waitForSelector page selector (jsOrTimeout timeout s.config.defaultTimeout) =
        Except.error msg) := by
  cases hE : env.waitForSelector page selector (jsOrTimeout timeout s.config.defaultTimeout) with
  | ok u =>
      cases u
      constructor <;> simp [BrowserService.waitForSel, hE]
  | error m =>
      constructor <;> simp [BrowserService.waitForSel, hE]

/-- Witness for C5 at concrete inputs under the all-succeeding driver. -/
theorem waitForSel_never_throws_witness :
    ((BrowserService.waitForSel testEnvOk testStateLive 7 "div.post" none).1 = true ↔
      testEnvOk.waitForSelector 7 "div.post"
        (jsOrTimeout none testStateLive.config.defaultTimeout) = Except.ok ()) ∧
    ((BrowserService.waitForSel testEnvOk testStateLive 7 "div.post" none).1 = false ↔
      ∃ msg, testEnvOk.waitForSelector 7 "div.post"
        (jsOrTimeout none testStateLive.config.defaultTimeout) = Except.error msg) :=
  waitForSel_never_throws testEnvOk testStateLive 7 "div.post" none

/-- Counterexample to claim C7 as stated: the caller supplies a timeout of 0
(with the configured default 30000), yet the driver's goto receives 30000,
not the caller-supplied 0. -/
theorem navigateTo_zero_timeout_counterexample :
    (BrowserService.navigateTo testEnvOk testStateLive 7 "https://example.com"
        (some (INavigationOptions.mk none (some 0)))).2 =
      [DriverCall.goto "https://example.com" LifeCycleEvent.networkidle0 30000] ∧
    (30000 : Nat) ≠ 0 := by
  exact ⟨rfl, by decide⟩

/-- Claim C7 (amended): `navigateTo` calls the driver's goto on the page
with the given url, waiting until network-idle unless the caller supplies a
wait condition, with the caller-supplied timeout when it is nonzero and the
configured default timeout otherwise (JavaScript falsy fallback); a driver
failure is raised as a wrapped error whose message includes the url, and a
driver success is returned as success. -/
theorem navigateTo_spec (env : DriverEnv) (s : BrowserService) (page : Page)
    (url : String) (options : Option INavigationOptions) :
    (BrowserService.navigateTo env s page url options).2 =
      [DriverCall.goto url
        ((options.bind INavigationOptions.waitUntil).getD LifeCycleEvent.networkidle0)
        (jsOrTimeout (options.bind INavigationOptions.timeout) s.config.defaultTimeout)] ∧
    (∀ msg, env.goto page url
        ((options.bind INavigationOptions.waitUntil).getD LifeCycleEvent.networkidle0)
        (jsOrTimeout (options.bind INavigationOptions.timeout) s.config.defaultTimeout) =
          Except.error msg →
      (BrowserService.navigateTo env s page url options).1 =
        Except.error (BrowserError.mk ("Failed to navigate to " ++ url ++ ": " ++ msg))) ∧
    (env.goto page url
        ((options.bind INavigationOptions.waitUntil).getD LifeCycleEvent.networkidle0)
        (jsOrTimeout (options.bind INavigationOptions.timeout) s.config.defaultTimeout) =
          Except.ok () →
      (BrowserService.navigateTo env s page url options).1 = Except.ok ()) := by
  cases hE : env.goto page url
      ((options.bind INavigationOptions.waitUntil).getD LifeCycleEvent.networkidle0)
      (jsOrTimeout (options.bind INavigationOptions.timeout) s.config.defaultTimeout) with
  | ok u =>
      cases u
      refine ⟨?_, ?_, ?_⟩ <;> simp [BrowserService.navigateTo, hE]
  | error m =>
      refine ⟨?_, ?_, ?_⟩ <;> simp [BrowserService.navigateTo, hE]

/-- Witness for amended C7: a failing navigation wraps the url into the
error message. -/
theorem navigateTo_spec_witness :
    (BrowserService.navigateTo testEnvFail testStateLive 7 "https://x.test" none).1 =
      Except.error
        (BrowserError.mk ("Failed to navigate to " ++ "https://x.test" ++ ": " ++ "boom")) :=
  (navigateTo_spec testEnvFail testStateLive 7 "https://x.test" none).2.1 "boom" rfl

/-- Helper: every error raised by `getPage` on a state with a live browser
handle is a wrapped "Failed to create new page: ..." error. -/
theorem getPage_some_error_wrapped (env : DriverEnv) (s : BrowserService) (b : Browser)
    (hb : s.browser = some b) (e : BrowserError)
    (he : (BrowserService.getPage env s).1 = Except.error e) :
    ∃ m, e.message = "Failed to create new page: " ++ m := by
  obtain ⟨br, cfg⟩ := s
  simp only at hb
  subst hb
  cases hN : env.newPage b with
  | error m =>
      simp [BrowserService.getPage, hN] at he
      exact ⟨m, by rw [← he]⟩
  | ok page =>
      rcases hS : BrowserService.setupPage env (BrowserService.mk (some b) cfg) page
        with ⟨r, calls⟩
      cases r with
      | ok u =>
          simp [BrowserService.getPage, hN, hS] at he
      | error e0 =>
          simp [BrowserService.getPage, hN, hS] at he
          exact ⟨e0.message, by rw [← he]⟩

/-- Helper: a wrapped page-creation error message is never the
"Browser not initialized" message (their lengths differ). -/
theorem wrapped_page_error_ne_uninitialized (m : String) :
    "Failed to create new page: " ++ m ≠ "Browser not initialized" := by
  intro h
  have hl := congrArg String.length h
  rw [String.length_append] at hl
  have h1 : ("Failed to create new page: " : String).length = 27 := rfl
  have h2 : ("Browser not initialized" : String).length = 23 := rfl
  omega

/-- Claim C8: with a live browser handle, `getPage` creates a new page and
applies to it exactly the creation-time configuration, in order: the
configured viewport width/height, the fixed desktop user-agent string, the
configured default timeout, and the fixed Accept-Language header, then
returns that page; and whenever any of these steps fails, `getPage` fails
with a wrapped error. -/
theorem getPage_setup_spec (env : DriverEnv) (s : BrowserService) (b : Browser)
    (hb : s.browser = some b) :
    (∀ page, env.newPage b = Except.ok page →
      env.setViewport page s.config.windowWidth s.config.windowHeight = Except.ok () →
      env.setUserAgent page userAgentString = Except.ok () →
      env.setDefaultTimeout page s.config.defaultTimeout = Except.ok () →
      env.setExtraHTTPHeaders page acceptLanguageHeaders = Except.ok () →
      BrowserService.getPage env s =
        (Except.ok page, s,
          [DriverCall.newPage,
           DriverCall.setViewport s.config.windowWidth s.config.windowHeight,
           DriverCall.setUserAgent userAgentString,
           DriverCall.setDefaultTimeout s.config.defaultTimeout,
           DriverCall.setExtraHTTPHeaders acceptLanguageHeaders])) ∧
    (∀ e, (BrowserService.getPage env s).1 = Except.error e →
      ∃ m, e.message = "Failed to create new page: " ++ m) := by
  constructor
  · intro page h1 h2 h3 h4 h5
    obtain ⟨br, cfg⟩ := s
    simp only at hb
    subst hb
    simp [BrowserService.getPage, BrowserService.setupPage, h1, h2, h3, h4, h5]
  · intro e he
    exact getPage_some_error_wrapped env s b hb e he

/-- Witness for C8: the full setup trace on the all-succeeding driver. -/
theorem getPage_setup_spec_witness :
    BrowserService.getPage testEnvOk testStateLive =
      (Except.ok 7, testStateLive,
        [DriverCall.newPage,
         DriverCall.setViewport testStateLive.config.windowWidth
           testStateLive.config.windowHeight,
         DriverCall.setUserAgent userAgentString,
         DriverCall.setDefaultTimeout testStateLive.config.defaultTimeout,
         DriverCall.setExtraHTTPHeaders acceptLanguageHeaders]) :=
  (getPage_setup_spec testEnvOk testStateLive 1 rfl).1 7 rfl rfl rfl rfl rfl

/-- Claim C9: when the driver's close fails, `close` raises the wrapped
error and leaves the browser handle set (the state unchanged), so an
immediately subsequent `getPage` never fails with the
"Browser not initialized" message. -/
theorem close_failure_keeps_handle (env : DriverEnv) (s : BrowserService) (b : Browser)
    (hb : s.browser = some b) (msg : String)
    (hc : env.closeBrowser b = Except.error msg) :
    BrowserService.close env s =
      (Except.error (BrowserError.mk ("Failed to close browser: " ++ msg)), s,
        [DriverCall.closeBrowser]) ∧
    (BrowserService.close env s).2.1.browser = some b ∧
    (∀ e, (BrowserService.getPage env (BrowserService.close env s).2.1).1 = Except.error e →
      e.message ≠ "Browser not initialized") := by
  obtain ⟨br, cfg⟩ := s
  simp only at hb
  subst hb
  have hcl : BrowserService.close env (BrowserService.mk (some b) cfg) =
      (Except.error (BrowserError.mk ("Failed to close browser: " ++ msg)),
        BrowserService.mk (some b) cfg, [DriverCall.closeBrowser]) := by
    simp [BrowserService.close, hc]
  refine ⟨hcl, by rw [hcl], ?_⟩
  intro e he
  rw [hcl] at he
  obtain ⟨m, hm⟩ := getPage_some_error_wrapped env (BrowserService.mk (some b) cfg) b rfl e he
  rw [hm]
  exact wrapped_page_error_ne_uninitialized m

/-- Witness for C9 under the all-failing driver. -/
theorem close_failure_keeps_handle_witness :
    BrowserService.close testEnvFail testStateLive =
      (Except.error (BrowserError.mk ("Failed to close browser: " ++ "boom")),
        testStateLive, [DriverCall.closeBrowser]) ∧
    (BrowserService.close testEnvFail testStateLive).2.1.browser = some 1 :=
  ⟨(close_failure_keeps_handle testEnvFail testStateLive 1 rfl "boom" rfl).1,
   (close_failure_keeps_handle testEnvFail testStateLive 1 rfl "boom" rfl).2.1⟩

/-- Claim C10: a caller-supplied timeout of 0 is not honored as zero: both
`navigateTo` and `waitForSelector` pass the configured default timeout to
the driver instead of 0. -/
theorem timeout_zero_uses_default (env : DriverEnv) (s : BrowserService) (page : Page)
    (url selector : String) :
    (BrowserService.navigateTo env s page url
        (some (INavigationOptions.mk none (some 0)))).2 =
      [DriverCall.goto url LifeCycleEvent.networkidle0 s.config.defaultTimeout] ∧
    (BrowserService.waitForSel env s page selector (some 0)).2 =
      [DriverCall.waitForSelector selector s.config.defaultTimeout] := by
  constructor
  · cases hE : env.goto page url LifeCycleEvent.networkidle0 s.config.defaultTimeout with
    | ok u => cases u; simp [BrowserService.navigateTo, jsOrTimeout, hE]
    | error m => simp [BrowserService.navigateTo, jsOrTimeout, hE]
  · cases hE : env.waitForSelector page selector s.config.defaultTimeout with
    | ok u => cases u; simp [BrowserService.waitForSel, jsOrTimeout, hE]
    | error m => simp [BrowserService.waitForSel, jsOrTimeout, hE]

/-- Witness for C10 at concrete inputs. -/
theorem timeout_zero_uses_default_witness :
    (BrowserService.navigateTo testEnvOk testStateLive 7 "https://x.test"
        (some (INavigationOptions.mk none (some 0)))).2 =
      [DriverCall.goto "https://x.test" LifeCycleEvent.networkidle0
        testStateLive.config.defaultTimeout] ∧
    (BrowserService.waitForSel testEnvOk testStateLive 7 "div.post" (some 0)).2 =
      [DriverCall.waitForSelector "div.post" testStateLive.config.defaultTimeout] :=
  timeout_zero_uses_default testEnvOk testStateLive 7 "https://x.test" "div.post"
